import Mathlib

/-
Shallow embedding of the transport control state machine of
src/MIDIplayer.py (class MIDIPlayer).  Wall-clock instants and tempos are
rationals; each call that in Python reads time.time() takes the current
instant as an explicit argument.  External collaborators are abstracted at
their interface boundary: the parsed MIDI source (pretty_midi) is a record
of the two values the player reads from it, and every pygame / threading
call is recorded as an explicit effect value instead of being performed.
-/

/-- Interface of the loaded MIDI source: the player only reads
get_end_time() and get_tempo_changes()[1] (the list of tempo values). -/
structure MidiData where
  endTime : ℚ
  tempoChanges : List ℚ
deriving DecidableEq

/-- Tempo detection of load_midi_file lines 47-51: the first entry of
tempo_changes[1] when it is nonempty, otherwise the default 120. -/
def MidiData.baseTempo (md : MidiData) : ℚ :=
  match md.tempoChanges.head? with
  | some t => t
  | none => 120

/-- Calls the controller issues to pygame and to the threading module;
recorded as values (best-effort in the source: failures are caught). -/
inductive AudioEffect where
  | load_cmd (path : String)
  | play_music
  | pause_music
  | unpause_music
  | stop_music
  | start_tracker
  | join_tracker (timeout : ℚ)
deriving DecidableEq

/-- The mutable fields set in MIDIPlayer.__init__ (lines 11-21).
play_thread is modelled outside the record (a thread_alive flag is passed
where the source inspects it). -/
structure MIDIPlayer where
  midi_data : Option MidiData
  original_bpm : ℚ
  current_bpm : ℚ
  is_playing : Bool
  is_paused : Bool
  start_time : ℚ
  pause_time : ℚ
  current_position : ℚ
  current_file_path : Option String
  audio_enabled : Bool
deriving DecidableEq

/-- Constructor MIDIPlayer.__init__: all numeric fields 0 except the two
BPM fields which start at 120; audio_enabled records whether the pygame
mixer initialised. -/
def MIDIPlayer.init (audio : Bool) : MIDIPlayer :=
  { midi_data := none
  , original_bpm := 120
  , current_bpm := 120
  , is_playing := false
  , is_paused := false
  , start_time := 0
  , pause_time := 0
  , current_position := 0
  , current_file_path := none
  , audio_enabled := audio }

/-- Outcome of the try-block of load_midi_file: the os.path.exists check
fails, pretty_midi.PrettyMIDI raises, or parsing succeeds with data md. -/
inductive LoadOutcome where
  | fileNotFound
  | parseError
  | ok (md : MidiData)
deriving DecidableEq

/-- load_midi_file (lines 34-61).  On fileNotFound the exception is raised
before any field is written; on parseError current_file_path (line 41) was
already assigned; on success midi_data, original_bpm and current_bpm are
set from the parsed data.  Every exception is caught and turned into the
return value False. -/
def MIDIPlayer.load_midi_file (s : MIDIPlayer) (path : String) (o : LoadOutcome) :
    MIDIPlayer × Bool :=
  match o with
  | .fileNotFound => (s, false)
  | .parseError => ({ s with current_file_path := some path }, false)
  | .ok md =>
      ({ s with current_file_path := some path
              , midi_data := some md
              , original_bpm := md.baseTempo
              , current_bpm := md.baseTempo }, true)

/-- set_bpm (lines 63-68).  The second component models the raised
ValueError propagating to the caller (none when no exception is raised);
the raise happens before any mutation, so the state is unchanged then. -/
def MIDIPlayer.set_bpm (s : MIDIPlayer) (bpm : ℚ) : MIDIPlayer × Option String :=
  if bpm ≤ 0 then (s, some "ValueError: BPM must be positive")
  else ({ s with current_bpm := bpm }, none)

/-- get_tempo_ratio (lines 70-72). -/
def MIDIPlayer.get_tempo_ratio (s : MIDIPlayer) : ℚ :=
  s.original_bpm / s.current_bpm

/-- play (lines 97-121), with now the value of time.time() at the call.
Returns False with no mutation when no file is loaded or when already
playing; otherwise flips the flags, sets current_position and start_time,
issues the pygame load and play commands when a file path is stored and
audio is enabled (play_with_pygame, lines 74-87), and starts the tracker
thread. -/
def MIDIPlayer.play (s : MIDIPlayer) (now start_pos : ℚ) :
    MIDIPlayer × Bool × List AudioEffect :=
  match s.midi_data with
  | none => (s, false, [])
  | some _ =>
    if s.is_playing then (s, false, [])
    else
      let s1 := { s with is_playing := true
                       , is_paused := false
                       , current_position := start_pos
                       , start_time := now - start_pos }
      let audioFx :=
        match s1.current_file_path with
        | some p =>
            if s1.audio_enabled then [AudioEffect.load_cmd p, AudioEffect.play_music]
            else []
        | none => []
      (s1, true, audioFx ++ [AudioEffect.start_tracker])

/-- One iteration of the while-loop of _play_worker (lines 131-143).
total_duration is the scaled duration computed once at worker start
(line 129) from the state at play time; now is time.time() at this tick.
The Bool is whether the loop continues.  The worker body performs no
pygame call, so the effect list is empty on every path. -/
def MIDIPlayer.play_worker_tick (s : MIDIPlayer) (total_duration now : ℚ) :
    MIDIPlayer × Bool × List AudioEffect :=
  if s.is_playing = false then (s, false, [])
  else if s.is_paused then (s, true, [])
  else
    let s1 := { s with current_position := now - s.start_time }
    if s1.current_position ≥ total_duration then
      ({ s1 with is_playing := false }, false, [])
    else (s1, true, [])

/-- Scaled total duration the worker computes at line 129 from the state
it starts in. -/
def MIDIPlayer.worker_total_duration (s : MIDIPlayer) (md : MidiData) : ℚ :=
  md.endTime * s.get_tempo_ratio

/-- pause (lines 145-154), with now the value of time.time(). -/
def MIDIPlayer.pause (s : MIDIPlayer) (now : ℚ) :
    MIDIPlayer × Bool × List AudioEffect :=
  if s.is_playing && !s.is_paused then
    ({ s with is_paused := true, pause_time := now }, true,
     if s.audio_enabled then [AudioEffect.pause_music] else [])
  else (s, false, [])

/-- resume (lines 156-167), with now the value of time.time(): shifts
start_time forward by the elapsed pause duration and clears is_paused. -/
def MIDIPlayer.resume (s : MIDIPlayer) (now : ℚ) :
    MIDIPlayer × Bool × List AudioEffect :=
  if s.is_playing && s.is_paused then
    ({ s with start_time := s.start_time + (now - s.pause_time)
            , is_paused := false }, true,
     if s.audio_enabled then [AudioEffect.unpause_music] else [])
  else (s, false, [])

/-- stop (lines 169-184).  thread_alive is play_thread existing and
is_alive() at line 179; in that case the join with timeout 1 second is
recorded.  stop_pygame (lines 89-95) only acts when audio is enabled. -/
def MIDIPlayer.stop (s : MIDIPlayer) (thread_alive : Bool) :
    MIDIPlayer × Bool × List AudioEffect :=
  if s.is_playing then
    ({ s with is_playing := false, is_paused := false, current_position := 0 },
     true,
     (if s.audio_enabled then [AudioEffect.stop_music] else []) ++
       (if thread_alive then [AudioEffect.join_tracker 1] else []))
  else (s, false, [])

/-- seek (lines 208-229), with now the value of time.time() read by the
inner play call.  Range check against end_time * tempo_ratio, then either
a stop-and-replay at the new position (when playing) or a plain write of
current_position. -/
def MIDIPlayer.seek (s : MIDIPlayer) (position now : ℚ) (thread_alive : Bool) :
    MIDIPlayer × Bool × List AudioEffect :=
  match s.midi_data with
  | none => (s, false, [])
  | some md =>
    let max_duration := md.endTime * s.get_tempo_ratio
    if position < 0 ∨ position > max_duration then (s, false, [])
    else
      if s.is_playing then
        let r1 := s.stop thread_alive
        let r2 := r1.1.play now position
        (r2.1, true, r1.2.2 ++ r2.2.2)
      else ({ s with current_position := position }, true, [])

/-- The dictionary returned by get_status (lines 186-206).  file_name in
the source is os.path.basename of the stored path (an external library
call); the stored path itself stands in for it here. -/
structure PlayerStatus where
  is_playing : Bool
  is_paused : Bool
  current_position : ℚ
  current_bpm : ℚ
  original_bpm : ℚ
  audio_enabled : Bool
  duration : ℚ
  file_loaded : Bool
  file_name : Option String
deriving DecidableEq

/-- get_status (lines 186-206). -/
def MIDIPlayer.get_status (s : MIDIPlayer) : PlayerStatus :=
  { is_playing := s.is_playing
  , is_paused := s.is_paused
  , current_position := s.current_position
  , current_bpm := s.current_bpm
  , original_bpm := s.original_bpm
  , audio_enabled := s.audio_enabled
  , duration :=
      match s.midi_data with
      | some md => md.endTime * s.get_tempo_ratio
      | none => 0
  , file_loaded := s.midi_data.isSome
  , file_name :=
      match s.midi_data with
      | some _ => s.current_file_path
      | none => none }

/-- States reachable from a fresh player by the public operations and
tracker ticks, with every load outcome satisfying P.  The set_bpm step
takes the state component, which is unchanged on the exception branch. -/
inductive ReachFrom (P : LoadOutcome → Prop) : MIDIPlayer → Prop where
  | init (audio : Bool) : ReachFrom P (MIDIPlayer.init audio)
  | load {s : MIDIPlayer} (path : String) (o : LoadOutcome) :
      ReachFrom P s → P o → ReachFrom P (s.load_midi_file path o).1
  | tempo {s : MIDIPlayer} (bpm : ℚ) :
      ReachFrom P s → ReachFrom P (s.set_bpm bpm).1
  | play {s : MIDIPlayer} (now pos : ℚ) :
      ReachFrom P s → ReachFrom P (s.play now pos).1
  | pause {s : MIDIPlayer} (now : ℚ) :
      ReachFrom P s → ReachFrom P (s.pause now).1
  | resume {s : MIDIPlayer} (now : ℚ) :
      ReachFrom P s → ReachFrom P (s.resume now).1
  | stop {s : MIDIPlayer} (alive : Bool) :
      ReachFrom P s → ReachFrom P (s.stop alive).1
  | seek {s : MIDIPlayer} (pos now : ℚ) (alive : Bool) :
      ReachFrom P s → ReachFrom P (s.seek pos now alive).1
  | tick {s : MIDIPlayer} (total now : ℚ) :
      ReachFrom P s → ReachFrom P (s.play_worker_tick total now).1

/-- Load outcomes whose parsed source reports a positive base tempo
(the 120 default when no tempo is reported is positive anyway). -/
def PositiveTempoLoad (o : LoadOutcome) : Prop :=
  ∀ md : MidiData, o = LoadOutcome.ok md → 0 < md.baseTempo

/-- Concrete MIDI source used by the witnesses: 10 seconds long, reporting
base tempo 100. -/
def md0 : MidiData := { endTime := 10, tempoChanges := [100] }

/-- Concrete player state in unpaused playback of md0, used by the
witnesses. -/
def playingState : MIDIPlayer :=
  { midi_data := some md0
  , original_bpm := 100
  , current_bpm := 100
  , is_playing := true
  , is_paused := false
  , start_time := 2
  , pause_time := 0
  , current_position := 3
  , current_file_path := some "song.mid"
  , audio_enabled := true }

/-- Concrete paused player state, used by the witnesses. -/
def pausedState : MIDIPlayer :=
  { playingState with is_paused := true, pause_time := 7 }

/-- Concrete non-playing player state with md0 loaded (scaled duration
10 * (100/100) = 10), used by the witnesses. -/
def stoppedState : MIDIPlayer :=
  { playingState with is_playing := false, current_position := 0 }

/-- Claim C1: in any state with is_playing and is_paused both true,
resume(now) shifts start_time forward by exactly the elapsed pause
duration now - pause_time and clears is_paused, so the position
now - start_time right after resume equals the position at the instant
pause was called; hence the pause-resume round trip from any unpaused
playing state leaves the position continuous. -/
theorem resume_restores_position :
    (∀ (s : MIDIPlayer) (tr : ℚ), s.is_playing = true → s.is_paused = true →
       (s.resume tr).2.1 = true ∧
       (s.resume tr).1.is_paused = false ∧
       (s.resume tr).1.start_time = s.start_time + (tr - s.pause_time) ∧
       tr - (s.resume tr).1.start_time = s.pause_time - s.start_time) ∧
    (∀ (s : MIDIPlayer) (tp tr : ℚ), s.is_playing = true → s.is_paused = false →
       ((s.pause tp).1.resume tr).2.1 = true ∧
       tr - ((s.pause tp).1.resume tr).1.start_time = tp - s.start_time) := by
  constructor
  · intro s tr hp hps
    simp [MIDIPlayer.resume, hp, hps]
    ring
  · intro s tp tr hp hps
    simp [MIDIPlayer.pause, MIDIPlayer.resume, hp, hps]
    ring

/-- Witness for C1 at concrete states: resuming pausedState at instant 9
restores the position held when pause was called at instant 7, and the
pause-at-7 / resume-at-11 round trip from playingState does the same. -/
theorem resume_restores_position_witness :
    ((pausedState.resume 9).1.is_paused = false ∧
     9 - (pausedState.resume 9).1.start_time = 7 - 2) ∧
    (11 - ((playingState.pause 7).1.resume 11).1.start_time = 7 - 2) := by
  have h1 := resume_restores_position.1 pausedState 9 (by decide) (by decide)
  have h2 := resume_restores_position.2 playingState 7 11 (by decide) (by decide)
  exact ⟨⟨h1.2.1, h1.2.2.2⟩, h2.2⟩

/-- Claim C4: play(now, atPosition) returns False and leaves the entire
state unchanged (and issues nothing) when no source is loaded, likewise
when is_playing is already true; otherwise it returns True and sets
is_playing, clears is_paused, sets current_position to the requested
position and start_time to now - position, so now - start_time equals the
position at the instant of the call. -/
theorem play_spec :
    (∀ (s : MIDIPlayer) (now pos : ℚ), s.midi_data = none →
       s.play now pos = (s, false, [])) ∧
    (∀ (s : MIDIPlayer) (now pos : ℚ), s.is_playing = true →
       s.play now pos = (s, false, [])) ∧
    (∀ (s : MIDIPlayer) (now pos : ℚ), s.midi_data ≠ none → s.is_playing = false →
       (s.play now pos).2.1 = true ∧
       (s.play now pos).1.is_playing = true ∧
       (s.play now pos).1.is_paused = false ∧
       (s.play now pos).1.current_position = pos ∧
       (s.play now pos).1.start_time = now - pos ∧
       now - (s.play now pos).1.start_time = pos) := by
  refine ⟨?_, ?_, ?_⟩
  · intro s now pos h
    simp [MIDIPlayer.play, h]
  · intro s now pos h
    cases hm : s.midi_data with
    | none => simp [MIDIPlayer.play, hm]
    | some md => simp [MIDIPlayer.play, hm, h]
  · intro s now pos hm hp
    cases hmd : s.midi_data with
    | none => exact absurd hmd hm
    | some md =>
        simp [MIDIPlayer.play, hmd, hp]

/-- Witness for C4: a fresh player has no source, so play fails without
mutation; playingState is already playing, so play fails without
mutation; stopping playingState and playing again at position 4 from
instant 6 succeeds with position 4 and start_time 2. -/
theorem play_spec_witness :
    ((MIDIPlayer.init true).play 5 0 = (MIDIPlayer.init true, false, []) ∧
     playingState.play 5 0 = (playingState, false, [])) ∧
    (((playingState.stop false).1.play 6 4).2.1 = true ∧
     ((playingState.stop false).1.play 6 4).1.current_position = 4 ∧
     6 - ((playingState.stop false).1.play 6 4).1.start_time = 4) := by
  have h1 := play_spec.1 (MIDIPlayer.init true) 5 0 (by decide)
  have h2 := play_spec.2.1 playingState 5 0 (by decide)
  have h3 := play_spec.2.2 (playingState.stop false).1 6 4 (by decide) (by decide)
  exact ⟨⟨h1, h2⟩, h3.1, h3.2.2.2.1, h3.2.2.2.2.2⟩

/-- Claim C7: stop() on a non-playing state returns False and changes no
field (and issues nothing); on a playing state it returns True, clears
is_playing and is_paused, zeroes current_position, leaves every other
field unchanged, and when the tracker thread is alive records the join
with the bounded timeout of 1 second before returning. -/
theorem stop_spec :
    (∀ (s : MIDIPlayer) (alive : Bool), s.is_playing = false →
       s.stop alive = (s, false, [])) ∧
    (∀ (s : MIDIPlayer) (alive : Bool), s.is_playing = true →
       (s.stop alive).2.1 = true ∧
       (s.stop alive).1.is_playing = false ∧
       (s.stop alive).1.is_paused = false ∧
       (s.stop alive).1.current_position = 0 ∧
       (s.stop alive).1.midi_data = s.midi_data ∧
       (s.stop alive).1.original_bpm = s.original_bpm ∧
       (s.stop alive).1.current_bpm = s.current_bpm ∧
       (s.stop alive).1.start_time = s.start_time ∧
       (s.stop alive).1.pause_time = s.pause_time ∧
       (s.stop alive).1.current_file_path = s.current_file_path ∧
       (alive = true → AudioEffect.join_tracker 1 ∈ (s.stop alive).2.2)) := by
  constructor
  · intro s alive h
    simp [MIDIPlayer.stop, h]
  · intro s alive h
    simp [MIDIPlayer.stop, h]

/-- Witness for C7: stopping a fresh (non-playing) player returns False
with nothing changed; stopping playingState with a live tracker thread
returns True, resets the three transport fields and records the join with
timeout 1. -/
theorem stop_spec_witness :
    ((MIDIPlayer.init true).stop false = (MIDIPlayer.init true, false, [])) ∧
    ((playingState.stop true).2.1 = true ∧
     (playingState.stop true).1.is_playing = false ∧
     (playingState.stop true).1.current_position = 0 ∧
     AudioEffect.join_tracker 1 ∈ (playingState.stop true).2.2) := by
  have h1 := stop_spec.1 (MIDIPlayer.init true) false (by decide)
  have h2 := stop_spec.2 playingState true (by decide)
  exact ⟨h1, h2.1, h2.2.1, h2.2.2.2.1, h2.2.2.2.2.2.2.2.2.2.2 rfl⟩

/-- Claim C3: on every tick, the worker issues no audio command and leaves
every field other than current_position and is_playing unchanged, and the
only autonomous change of is_playing is the auto-stop: it happens exactly
when playing unpaused and the computed position now - start_time reaches
the captured total duration, and then it sets is_playing false and exits
the loop with current_position holding the computed position. -/
theorem tracker_auto_stop :
    (∀ (s : MIDIPlayer) (total now : ℚ),
       (s.play_worker_tick total now).2.2 = [] ∧
       (s.play_worker_tick total now).1.is_paused = s.is_paused ∧
       (s.play_worker_tick total now).1.start_time = s.start_time ∧
       (s.play_worker_tick total now).1.pause_time = s.pause_time ∧
       (s.play_worker_tick total now).1.midi_data = s.midi_data ∧
       (s.play_worker_tick total now).1.original_bpm = s.original_bpm ∧
       (s.play_worker_tick total now).1.current_bpm = s.current_bpm ∧
       (s.play_worker_tick total now).1.current_file_path = s.current_file_path ∧
       ((s.play_worker_tick total now).1.is_playing ≠ s.is_playing →
          s.is_playing = true ∧ s.is_paused = false ∧
          total ≤ now - s.start_time ∧
          (s.play_worker_tick total now).1.is_playing = false)) ∧
    (∀ (s : MIDIPlayer) (total now : ℚ),
       s.is_playing = true → s.is_paused = false → total ≤ now - s.start_time →
       (s.play_worker_tick total now).1.is_playing = false ∧
       (s.play_worker_tick total now).2.1 = false ∧
       (s.play_worker_tick total now).1.current_position = now - s.start_time) := by
  constructor
  · intro s total now
    by_cases h1 : s.is_playing = false
    · simp [MIDIPlayer.play_worker_tick, h1]
    · have h1' : s.is_playing = true := by
        revert h1; cases s.is_playing <;> simp
      by_cases h2 : s.is_paused = true
      · simp [MIDIPlayer.play_worker_tick, h1', h2]
      · have h2' : s.is_paused = false := by
          revert h2; cases s.is_paused <;> simp
        by_cases h3 : total ≤ now - s.start_time
        · simp [MIDIPlayer.play_worker_tick, h1', h2', h3]
        · simp [MIDIPlayer.play_worker_tick, h1', h2', h3]
  · intro s total now h1 h2 h3
    simp [MIDIPlayer.play_worker_tick, h1, h2, h3]

/-- Witness for C3: a tick of playingState (start_time 2) at instant 30
against total duration 10 computes position 28, which exceeds 10, so the
tick auto-stops, exits and emits nothing. -/
theorem tracker_auto_stop_witness :
    ((playingState.play_worker_tick 10 30).1.is_playing = false ∧
     (playingState.play_worker_tick 10 30).2.1 = false ∧
     (playingState.play_worker_tick 10 30).1.current_position
       = 30 - playingState.start_time) ∧
    (playingState.play_worker_tick 10 30).2.2 = [] := by
  have h1 := tracker_auto_stop.2 playingState 10 30 (by decide) (by decide)
    (by norm_num [playingState])
  have h2 := (tracker_auto_stop.1 playingState 10 30).1
  exact ⟨⟨h1.1, h1.2.1, h1.2.2⟩, h2⟩

/-- Claim C5: with a source loaded, seek fails and changes nothing when
the position is below 0 or above the scaled duration; seeking exactly to
the scaled duration succeeds (inclusive boundary, given the scaled
duration is nonnegative); and a successful seek while not playing only
writes current_position, leaving is_playing false. -/
theorem seek_spec :
    (∀ (s : MIDIPlayer) (md : MidiData) (pos now : ℚ) (alive : Bool),
       s.midi_data = some md →
       (pos < 0 ∨ pos > md.endTime * s.get_tempo_ratio) →
       s.seek pos now alive = (s, false, [])) ∧
    (∀ (s : MIDIPlayer) (md : MidiData) (now : ℚ) (alive : Bool),
       s.midi_data = some md →
       0 ≤ md.endTime * s.get_tempo_ratio →
       (s.seek (md.endTime * s.get_tempo_ratio) now alive).2.1 = true) ∧
    (∀ (s : MIDIPlayer) (md : MidiData) (pos now : ℚ) (alive : Bool),
       s.midi_data = some md → s.is_playing = false →
       0 ≤ pos → pos ≤ md.endTime * s.get_tempo_ratio →
       (s.seek pos now alive).1 = { s with current_position := pos } ∧
       (s.seek pos now alive).2.1 = true ∧
       (s.seek pos now alive).1.is_playing = false ∧
       (s.seek pos now alive).1.current_position = pos) := by
  refine ⟨?_, ?_, ?_⟩
  · intro s md pos now alive hmd hrange
    simp only [MIDIPlayer.seek, hmd]
    rw [if_pos hrange]
  · intro s md now alive hmd hD
    simp only [MIDIPlayer.seek, hmd]
    rw [if_neg]
    · by_cases hp : s.is_playing = true
      · simp [hp]
      · simp [hp]
    · rintro (h | h)
      · exact absurd hD (not_le.mpr h)
      · exact lt_irrefl _ h
  · intro s md pos now alive hmd hp h0 hD
    simp only [MIDIPlayer.seek, hmd]
    rw [if_neg]
    · simp [hp]
    · rintro (h | h)
      · exact absurd h0 (not_le.mpr h)
      · exact absurd hD (not_le.mpr h)

/-- Witness for C5: on the stopped player stoppedState (scaled duration
10), seeking to 11 and to -1 fail with nothing changed, seeking to the
boundary 10 succeeds, and seeking to 4 while stopped writes only
current_position and does not start playback. -/
theorem seek_spec_witness :
    (stoppedState.seek 11 0 false = (stoppedState, false, []) ∧
     stoppedState.seek (-1) 0 false = (stoppedState, false, [])) ∧
    (stoppedState.seek 10 0 false).2.1 = true ∧
    ((stoppedState.seek 4 0 false).1.current_position = 4 ∧
     (stoppedState.seek 4 0 false).1.is_playing = false) := by
  have hb : md0.endTime * stoppedState.get_tempo_ratio = 10 := by
    norm_num [md0, stoppedState, playingState, MIDIPlayer.get_tempo_ratio]
  have h1 := seek_spec.1 stoppedState md0 11 0 false rfl (by rw [hb]; right; decide)
  have h2 := seek_spec.1 stoppedState md0 (-1) 0 false rfl (by left; decide)
  have h3 := seek_spec.2.1 stoppedState md0 0 false rfl (by rw [hb]; decide)
  have h4 := seek_spec.2.2 stoppedState md0 4 0 false rfl (by decide) (by decide)
    (by rw [hb]; decide)
  exact ⟨⟨h1, h2⟩, by rw [hb] at h3; exact h3, h4.2.2.2, h4.2.2.1⟩

/-- Counterexample to claim C2: loading succeeds from a state that is
playing at position 3, yet afterwards is_playing is still true and
current_position is still 3 — load_midi_file does not reset the transport
fields, contradicting the claimed full reset. -/
theorem load_midi_file_no_reset :
    (playingState.load_midi_file "other.mid" (LoadOutcome.ok md0)).2 = true ∧
    (playingState.load_midi_file "other.mid" (LoadOutcome.ok md0)).1.is_playing = true ∧
    (playingState.load_midi_file "other.mid" (LoadOutcome.ok md0)).1.current_position = 3 := by
  refine ⟨rfl, rfl, rfl⟩

/-- Claim C2 as amended: a successful load_midi_file returns True, stores
the parsed data and the path, and sets current_bpm and original_bpm to
the detected base tempo of the new source (120 when the source reports no
tempo), with the scaled duration then recomputed from the new source; it
leaves is_playing, is_paused and current_position unchanged rather than
resetting them. -/
theorem load_midi_file_spec (s : MIDIPlayer) (path : String) (md : MidiData) :
    (s.load_midi_file path (LoadOutcome.ok md)).2 = true ∧
    (s.load_midi_file path (LoadOutcome.ok md)).1.original_bpm = md.baseTempo ∧
    (s.load_midi_file path (LoadOutcome.ok md)).1.current_bpm = md.baseTempo ∧
    (s.load_midi_file path (LoadOutcome.ok md)).1.midi_data = some md ∧
    (s.load_midi_file path (LoadOutcome.ok md)).1.current_file_path = some path ∧
    (s.load_midi_file path (LoadOutcome.ok md)).1.is_playing = s.is_playing ∧
    (s.load_midi_file path (LoadOutcome.ok md)).1.is_paused = s.is_paused ∧
    (s.load_midi_file path (LoadOutcome.ok md)).1.current_position = s.current_position ∧
    (s.load_midi_file path (LoadOutcome.ok md)).1.get_status.duration
      = md.endTime * (md.baseTempo / md.baseTempo) ∧
    (∀ e : ℚ, (MidiData.mk e []).baseTempo = 120) := by
  refine ⟨rfl, rfl, rfl, rfl, rfl, rfl, rfl, rfl, ?_, ?_⟩
  · simp [MIDIPlayer.load_midi_file, MIDIPlayer.get_status, MIDIPlayer.get_tempo_ratio]
  · intro e
    rfl

/-- Counterexample to claim C6: set_bpm 0 surfaces its failure as a
raised ValueError escaping to the caller (the some component models the
Python raise at line 66), not as a non-fatal failure result, which is
what the claim asserts about the failure path. -/
theorem set_bpm_zero_raises :
    ((MIDIPlayer.init true).set_bpm 0).2 = some "ValueError: BPM must be positive" ∧
    ((MIDIPlayer.init true).set_bpm 0).2 ≠ none := by
  exact ⟨rfl, by decide⟩

/-- Claim C6 as amended: for bpm <= 0, set_bpm raises ValueError (an
exception propagating to the caller, not a returned failure result) and
leaves the state, in particular current_bpm, unchanged; for bpm > 0 it
raises nothing, afterwards get_status reports current_bpm = bpm with the
tempo ratio and scaled duration recomputed from the new tempo, and
is_playing and is_paused are never changed by set_bpm. -/
theorem set_bpm_spec :
    (∀ (s : MIDIPlayer) (bpm : ℚ), bpm ≤ 0 →
       s.set_bpm bpm = (s, some "ValueError: BPM must be positive")) ∧
    (∀ (s : MIDIPlayer) (bpm : ℚ), 0 < bpm →
       (s.set_bpm bpm).2 = none ∧
       (s.set_bpm bpm).1.get_status.current_bpm = bpm ∧
       (s.set_bpm bpm).1.current_bpm = bpm ∧
       (s.set_bpm bpm).1.is_playing = s.is_playing ∧
       (s.set_bpm bpm).1.is_paused = s.is_paused ∧
       (s.set_bpm bpm).1.get_tempo_ratio = s.original_bpm / bpm ∧
       (∀ md : MidiData, s.midi_data = some md →
          (s.set_bpm bpm).1.get_status.duration = md.endTime * (s.original_bpm / bpm))) := by
  constructor
  · intro s bpm h
    simp [MIDIPlayer.set_bpm, h]
  · intro s bpm h
    have h' : ¬ bpm ≤ 0 := not_le.mpr h
    refine ⟨by simp [MIDIPlayer.set_bpm, h'], by simp [MIDIPlayer.set_bpm, h',
      MIDIPlayer.get_status], by simp [MIDIPlayer.set_bpm, h'],
      by simp [MIDIPlayer.set_bpm, h'], by simp [MIDIPlayer.set_bpm, h'],
      by simp [MIDIPlayer.set_bpm, h', MIDIPlayer.get_tempo_ratio], ?_⟩
    intro md hmd
    simp [MIDIPlayer.set_bpm, h', MIDIPlayer.get_status, MIDIPlayer.get_tempo_ratio, hmd]

/-- Witness for C6 (amended): set_bpm 0 and set_bpm (-5) on a fresh
player raise the ValueError with the state unchanged, and set_bpm 140
raises nothing and leaves get_status reporting current_bpm 140. -/
theorem set_bpm_spec_witness :
    ((MIDIPlayer.init true).set_bpm 0
        = (MIDIPlayer.init true, some "ValueError: BPM must be positive") ∧
     (MIDIPlayer.init true).set_bpm (-5)
        = (MIDIPlayer.init true, some "ValueError: BPM must be positive")) ∧
    (((MIDIPlayer.init true).set_bpm 140).2 = none ∧
     ((MIDIPlayer.init true).set_bpm 140).1.get_status.current_bpm = 140) := by
  have h1 := set_bpm_spec.1 (MIDIPlayer.init true) 0 (by decide)
  have h2 := set_bpm_spec.1 (MIDIPlayer.init true) (-5) (by decide)
  have h3 := set_bpm_spec.2 (MIDIPlayer.init true) 140 (by decide)
  exact ⟨⟨h1, h2⟩, h3.1, h3.2.1⟩

/-- Helper: play never changes current_bpm. -/
theorem play_current_bpm (s : MIDIPlayer) (now pos : ℚ) :
    (s.play now pos).1.current_bpm = s.current_bpm := by
  cases hmd : s.midi_data with
  | none => simp [MIDIPlayer.play, hmd]
  | some md =>
      simp only [MIDIPlayer.play, hmd]
      split <;> rfl

/-- Helper: stop never changes current_bpm. -/
theorem stop_current_bpm (s : MIDIPlayer) (alive : Bool) :
    (s.stop alive).1.current_bpm = s.current_bpm := by
  simp only [MIDIPlayer.stop]
  split <;> rfl

/-- Helper: pause never changes current_bpm. -/
theorem pause_current_bpm (s : MIDIPlayer) (now : ℚ) :
    (s.pause now).1.current_bpm = s.current_bpm := by
  simp only [MIDIPlayer.pause]
  split <;> rfl

/-- Helper: resume never changes current_bpm. -/
theorem resume_current_bpm (s : MIDIPlayer) (now : ℚ) :
    (s.resume now).1.current_bpm = s.current_bpm := by
  simp only [MIDIPlayer.resume]
  split <;> rfl

/-- Helper: a worker tick never changes current_bpm. -/
theorem tick_current_bpm (s : MIDIPlayer) (total now : ℚ) :
    (s.play_worker_tick total now).1.current_bpm = s.current_bpm := by
  simp only [MIDIPlayer.play_worker_tick]
  split
  · rfl
  · split
    · rfl
    · split <;> rfl

/-- Helper: seek never changes current_bpm. -/
theorem seek_current_bpm (s : MIDIPlayer) (pos now : ℚ) (alive : Bool) :
    (s.seek pos now alive).1.current_bpm = s.current_bpm := by
  cases hmd : s.midi_data with
  | none => simp [MIDIPlayer.seek, hmd]
  | some md =>
      simp only [MIDIPlayer.seek, hmd]
      split
      · rfl
      · split
        · simp [play_current_bpm, stop_current_bpm]
        · rfl

/-- Helper: play preserves the invariant is_paused implies is_playing. -/
theorem play_keeps_flag_inv (s : MIDIPlayer) (now pos : ℚ)
    (h : s.is_paused = true → s.is_playing = true) :
    (s.play now pos).1.is_paused = true → (s.play now pos).1.is_playing = true := by
  cases hmd : s.midi_data with
  | none => simpa [MIDIPlayer.play, hmd] using h
  | some md =>
      by_cases hp : s.is_playing = true
      · simp [MIDIPlayer.play, hmd, hp]
      · have hp' : s.is_playing = false := by
          revert hp; cases s.is_playing <;> simp
        simp [MIDIPlayer.play, hmd, hp']

/-- Helper: stop preserves the invariant is_paused implies is_playing. -/
theorem stop_keeps_flag_inv (s : MIDIPlayer) (alive : Bool)
    (h : s.is_paused = true → s.is_playing = true) :
    (s.stop alive).1.is_paused = true → (s.stop alive).1.is_playing = true := by
  by_cases hp : s.is_playing = true
  · simp [MIDIPlayer.stop, hp]
  · have hp' : s.is_playing = false := by
      revert hp; cases s.is_playing <;> simp
    simpa [MIDIPlayer.stop, hp'] using h

/-- Claim C8: the invariant is_paused implies is_playing holds in the
initial state and is preserved by load_midi_file, set_bpm, play, pause,
resume, stop, seek and every worker tick, so no reachable state has
is_paused true with is_playing false. -/
theorem transport_flag_invariant (s : MIDIPlayer)
    (h : ReachFrom (fun _ => True) s) :
    s.is_paused = true → s.is_playing = true := by
  induction h with
  | init audio => simp [MIDIPlayer.init]
  | load path o _ _ ih =>
      cases o <;> simpa [MIDIPlayer.load_midi_file] using ih
  | tempo bpm _ ih =>
      by_cases hb : bpm ≤ 0 <;> simpa [MIDIPlayer.set_bpm, hb] using ih
  | play now pos _ ih => exact play_keeps_flag_inv _ now pos ih
  | pause now _ ih =>
      rename_i s' _
      by_cases hc : (s'.is_playing && !s'.is_paused) = true
      · have hc' := hc
        simp only [Bool.and_eq_true, Bool.not_eq_true'] at hc'
        simp [MIDIPlayer.pause, hc'.1, hc'.2]
      · simpa [MIDIPlayer.pause, hc] using ih
  | resume now _ ih =>
      rename_i s' _
      by_cases hc : (s'.is_playing && s'.is_paused) = true
      · simp [MIDIPlayer.resume, hc]
      · simpa [MIDIPlayer.resume, hc] using ih
  | stop alive _ ih => exact stop_keeps_flag_inv _ alive ih
  | seek pos now alive _ ih =>
      rename_i s' _
      cases hmd : s'.midi_data with
      | none => simpa [MIDIPlayer.seek, hmd] using ih
      | some md =>
          by_cases hr : (pos < 0 ∨ pos > md.endTime * s'.get_tempo_ratio)
          · simp only [MIDIPlayer.seek, hmd]
            rw [if_pos hr]
            exact ih
          · simp only [MIDIPlayer.seek, hmd]
            rw [if_neg hr]
            by_cases hp : s'.is_playing = true
            · simp only [hp, if_true]
              exact play_keeps_flag_inv _ now pos (stop_keeps_flag_inv _ alive ih)
            · have hp' : s'.is_playing = false := by
                revert hp; cases s'.is_playing <;> simp
              simpa [hp'] using ih
  | tick total now _ ih =>
      rename_i s' _
      by_cases h1 : s'.is_playing = false
      · simpa [MIDIPlayer.play_worker_tick, h1] using ih
      · have h1' : s'.is_playing = true := by
          revert h1; cases s'.is_playing <;> simp
        by_cases h2 : s'.is_paused = true
        · simp [MIDIPlayer.play_worker_tick, h1', h2, ih h2]
        · have h2' : s'.is_paused = false := by
            revert h2; cases s'.is_paused <;> simp
          by_cases h3 : total ≤ now - s'.start_time
          · simp [MIDIPlayer.play_worker_tick, h1', h2', h3]
          · simp [MIDIPlayer.play_worker_tick, h1', h2', h3]

/-- Witness for C8: the state reached by load, play, pause is paused, and
the theorem applied to its reachability proof yields is_playing true. -/
theorem transport_flag_invariant_witness :
    (((((MIDIPlayer.init true).load_midi_file "a.mid" (LoadOutcome.ok md0)).1.play
        0 0).1.pause 1).1).is_playing = true := by
  have hr : ReachFrom (fun _ => True)
      (((((MIDIPlayer.init true).load_midi_file "a.mid"
          (LoadOutcome.ok md0)).1.play 0 0).1.pause 1).1) :=
    ReachFrom.pause 1 (ReachFrom.play 0 0
      (ReachFrom.load "a.mid" (LoadOutcome.ok md0) (ReachFrom.init true) trivial))
  exact transport_flag_invariant _ hr (by decide)

/-- Claim C10: starting from the constructor and stepping by any of the
operations, with every accepted load reporting a positive base tempo,
current_bpm stays strictly positive (it starts at 120, set_bpm mutates it
only for positive arguments, load assigns the positive detected tempo or
the 120 default), so the division original_bpm / current_bpm of
get_tempo_ratio never divides by zero. -/
theorem current_bpm_positive (s : MIDIPlayer)
    (h : ReachFrom PositiveTempoLoad s) :
    0 < s.current_bpm ∧ s.current_bpm ≠ 0 := by
  have main : 0 < s.current_bpm := by
    induction h with
    | init audio => simp [MIDIPlayer.init]
    | load path o _ hP ih =>
        cases o with
        | fileNotFound => simpa [MIDIPlayer.load_midi_file] using ih
        | parseError => simpa [MIDIPlayer.load_midi_file] using ih
        | ok md =>
            have hpos := hP md rfl
            simpa [MIDIPlayer.load_midi_file] using hpos
    | tempo bpm _ ih =>
        by_cases hb : bpm ≤ 0
        · simpa [MIDIPlayer.set_bpm, hb] using ih
        · have hbpos : 0 < bpm := lt_of_not_le hb
          simpa [MIDIPlayer.set_bpm, hb] using hbpos
    | play now pos _ ih => simpa [play_current_bpm] using ih
    | pause now _ ih => simpa [pause_current_bpm] using ih
    | resume now _ ih => simpa [resume_current_bpm] using ih
    | stop alive _ ih => simpa [stop_current_bpm] using ih
    | seek pos now alive _ ih => simpa [seek_current_bpm] using ih
    | tick total now _ ih => simpa [tick_current_bpm] using ih
  exact ⟨main, ne_of_gt main⟩

/-- Witness for C10: after loading md0 (positive base tempo 100) and then
setting bpm 140, the reached state has a positive, nonzero current_bpm. -/
theorem current_bpm_positive_witness :
    0 < ((((MIDIPlayer.init true).load_midi_file "a.mid"
        (LoadOutcome.ok md0)).1.set_bpm 140).1).current_bpm := by
  have hP : PositiveTempoLoad (LoadOutcome.ok md0) := by
    intro md hmd
    injection hmd with h
    subst h
    decide
  have hr : ReachFrom PositiveTempoLoad
      ((((MIDIPlayer.init true).load_midi_file "a.mid"
          (LoadOutcome.ok md0)).1.set_bpm 140).1) :=
    ReachFrom.tempo 140
      (ReachFrom.load "a.mid" (LoadOutcome.ok md0) (ReachFrom.init true) hP)
  exact (current_bpm_positive _ hr).1
